import Mathlib

/-!
Shallow embedding of the plot-level extractor pipeline
(`extractor_base.py` of the Drone-Processing-Pipeline repository),
together with proofs about the behaviour its specification claims.

External collaborators (the pluggable `calculate` algorithm, the
`terrautils` geo helpers, the HTTP layer, the filesystem) are modelled
as explicit inputs / oracles; everything else is translated directly
from the source.
-/

namespace Pipeline

/-! ## Python dictionaries as association lists

A Python `dict` is modelled as a list of key/value pairs in insertion
order.  `dget?` is `d[k]` / `k in d`, `dupdateOne` is `d[k] = v`
(replace in place when the key exists, append otherwise), and
`dupdate` is `d.update(e)` (iterate over `e` in order). -/

def dget? {α : Type} : List (String × α) → String → Option α
  | [], _ => none
  | (k', v) :: rest, k => if k' = k then some v else dget? rest k

def dupdateOne {α : Type} : List (String × α) → String → α → List (String × α)
  | [], k, v => [(k, v)]
  | (k', w) :: rest, k, v =>
      if k' = k then (k, v) :: rest else (k', w) :: dupdateOne rest k v

def dupdate {α : Type} (d e : List (String × α)) : List (String × α) :=
  e.foldl (fun acc p => dupdateOne acc p.1 p.2) d

/-! ## Python values returned by the pluggable algorithm -/

/-- Shapes a Python value returned by `calculate` can take: the
isinstance checks in `process_files` distinguish `set`, `dict`,
`list`/`tuple`, and everything else (a scalar). -/
inductive PyVal where
  | str (s : String)
  | int (n : Int)
  | list (xs : List PyVal)
  | tuple (xs : List PyVal)
  | dict (entries : List (String × PyVal))
  | set (xs : List PyVal)
  deriving Repr

/-! ## Result reconciliation (`process_files`, lines 578-597)

The Python code is, per loop iteration:

    if isinstance(calc_value, set):
        raise RuntimeError(...)
    elif isinstance(calc_value, dict):
        values = [calc_value[k] for k in FIELD_NAME_LIST if k in calc_value]
    elif not isinstance(calc_value, (list, tuple)):
        values = [calc_value]
    len_calc_value = len(values)
    if not len_calc_value == len_field_value:
        raise RuntimeError(...)

No branch assigns `values` when `calc_value` is a `list` or `tuple`:
`values` keeps whatever binding it had from a previous loop iteration,
or is unbound (an `UnboundLocalError` at `len(values)`) on the first
iteration.  The model threads that binding through explicitly as an
`Option (List PyVal)` and returns the new binding together with the
outcome (an exception is modelled as `Except.error`). -/
def reconcileStep (fields : List String) (prev : Option (List PyVal)) (calcValue : PyVal) :
    Option (List PyVal) × Except String (List PyVal) :=
  match calcValue with
  | .set _ =>
      (prev, Except.error "A set type of data was returned and is not supported. Please use a list or a tuple instead")
  | .dict es =>
      let values := fields.filterMap (fun k => dget? es k)
      (some values,
        if values.length = fields.length then Except.ok values
        else Except.error "Incorrect number of values returned")
  | .list _ =>
      (prev,
        match prev with
        | none => Except.error "UnboundLocalError: local variable values referenced before assignment"
        | some values =>
            if values.length = fields.length then Except.ok values
            else Except.error "Incorrect number of values returned")
  | .tuple _ =>
      (prev,
        match prev with
        | none => Except.error "UnboundLocalError: local variable values referenced before assignment"
        | some values =>
            if values.length = fields.length then Except.ok values
            else Except.error "Incorrect number of values returned")
  | v =>
      (some [v],
        if [v].length = fields.length then Except.ok [v]
        else Except.error "Incorrect number of values returned")

/-! ## The per-image loop of `process_files` (lines 566-661)

For each loaded image the algorithm is invoked, the result reconciled,
and on success one CSV row appended (default configuration: both
`create_csv_files` and `store_in_betydb` are true).  A per-image
exception is caught, logged and the loop `continue`s — which skips the
`break` at the bottom; after a *successful* image the loop breaks when
more than one image was loaded ("Only process the first file that's
valid").  The model records which files the algorithm was invoked on
and which files produced a row. -/
def process_loop (alg : String → PyVal) (fields : List String) (numLoaded : Nat) :
    List String → Option (List PyVal) → List String × List String
  | [], _ => ([], [])
  | f :: rest, vals =>
      match reconcileStep fields vals (alg f) with
      | (vals', Except.error _) =>
          let r := process_loop alg fields numLoaded rest vals'
          (f :: r.1, r.2)
      | (vals', Except.ok _) =>
          if 1 < numLoaded then ([f], [f])
          else
            let r := process_loop alg fields numLoaded rest vals'
            (f :: r.1, f :: r.2)

/-- Entry point of the loop: `num_loaded_files = len(loaded_files)` is
computed before the loop, and `values` starts out unbound. -/
def process_files_model (alg : String → PyVal) (fields : List String)
    (files : List String) : List String × List String :=
  process_loop alg fields files.length files none

/-! ## Geolocating image files (`load_image_files`, lines 374-423)

A coordinate read from a file is a float; `none` stands for IEEE NaN,
`some q` for an ordinary (here: rational) value.  `image_get_geobounds`
returns `(minY, maxY, minX, maxX)` per the function's docstring; it and
`get_epsg` / `ImportFromEPSG` are external collaborators, supplied as
an oracle. -/

def Coord : Type := Option ℚ

/-- The value `np.nan`. -/
def nanCoord : Coord := none

/-- Python `!=` on floats: NaN compares unequal to everything,
including itself, so the comparison is `true` whenever either side is
NaN. -/
def pyFloatNe (a b : Coord) : Bool :=
  match a, b with
  | some x, some y => decide (x ≠ y)
  | _, _ => true

/-- Result of `image_get_geobounds`: min and max Y, then min and max X
(`bounds[0] .. bounds[3]` in the source). -/
structure GeoBounds where
  minY : Coord
  maxY : Coord
  minX : Coord
  maxX : Coord

/-- The external file readers used by `load_image_files`. -/
structure ImageOracle where
  geobounds : String → GeoBounds
  epsg : String → Option Nat
  epsgValid : Nat → Bool

/-- An entry of the returned `imagefiles` dict: the ring of points added
to the boundary polygon, and the spatial reference it was assigned. -/
structure Candidate where
  ring : List (Coord × Coord)
  srid : Nat

/-- Translation of `load_image_files`: for each file, read the bounds,
test `bounds[0] != np.nan`, build the closed clockwise ring
upper-left → upper-right → lower-right → lower-left → upper-left, then
assign the spatial reference, raising a `RuntimeError` when the EPSG
code is missing or fails to import. -/
def load_image_files (o : ImageOracle) : List String → Except String (List (String × Candidate))
  | [] => Except.ok []
  | f :: rest =>
      let b := o.geobounds f
      if pyFloatNe b.minY nanCoord then
        match o.epsg f with
        | some code =>
            if o.epsgValid code then
              (load_image_files o rest).map
                (fun tail =>
                  (f, { ring := [(b.minX, b.maxY), (b.maxX, b.maxY), (b.maxX, b.minY),
                                 (b.minX, b.minY), (b.minX, b.maxY)],
                        srid := code }) :: tail)
            else Except.error ("Failed to import EPSG " ++ toString code ++ " for image file " ++ f)
        | none => Except.error ("File is missing an EPSG code: " ++ f)
      else
        load_image_files o rest

/-! ## Metadata merging (`load_metadata`, lines 425-449)

The claim under scrutiny is restricted to runs where every file parses,
so the input is the list of already-parsed top-level JSON objects, in
input order.  `new_metadata.update(file_md)` is executed only when the
parsed object is truthy (non-empty). -/

def load_metadata {α : Type} (files : List (List (String × α))) : List (String × α) :=
  files.foldl (fun md f => if f.isEmpty then md else dupdate md f) []

/-- The value assigned to a key by the last file (in input order) that
defines it: scanning the reversed list, take the first file that
defines the key. -/
def lastDefining {α : Type} (files : List (List (String × α))) (k : String) : Option α :=
  files.reverse.findSome? (fun f => dget? f k)

/-! ## Durable CSV append (`write_csv_file`, lines 451-509)

The filesystem and the clock are external: `openOk i` says whether the
`i`-th `open(filename, 'a+')` attempt succeeds, and `failHeader` /
`failData` say whether the corresponding `csv_file.write` raises.
`contents` is the file's contents at open time (the empty string for a
fresh or nonexistent file); `os.fstat(...).st_size` is its length.
A Python `str`-or-`None` argument is an `Option String`; `pyTruthy`
is Python truthiness for it. -/

def pyTruthy : Option String → Bool
  | none => false
  | some s => !(s.length == 0)

def MAX_CSV_FILE_OPEN_TRIES : Nat := 10

/-- The open-retry loop: `for tries in range(0, MAX_CSV_FILE_OPEN_TRIES)`,
attempt an open, break on success, and sleep between attempts (but not
after the last).  Returns (opened, number of open attempts, number of
sleeps). -/
def openLoop (openOk : Nat → Bool) : Nat → Nat → Bool × Nat × Nat
  | 0, _ => (false, 0, 0)
  | remaining + 1, idx =>
      if openOk idx then (true, 1, 0)
      else if 0 < remaining then
        let r := openLoop openOk remaining (idx + 1)
        (r.1, r.2.1 + 1, r.2.2 + 1)
      else (false, 1, 0)

/-- Observable outcome of one `write_csv_file` call: the returned value
or raised exception, how many open attempts and backoff sleeps
happened, the file contents afterwards, whether a header line was
written during this call, and whether a file handle was left open at
exit (the `finally: csv_file.close()` makes this `false` on every
path). -/
structure CsvResult where
  outcome : Except String Bool
  openAttempts : Nat
  sleepCount : Nat
  contents : String
  wroteHeader : Bool
  handleOpen : Bool
  deriving Repr

/-- Translation of `write_csv_file`.  The empty-parameter guard comes
first (before any open attempt); then the open-retry loop; then the
write phase guarded by `os.fstat(...).st_size <= 0` and `if header:`;
exceptions during a write are caught, leave `wrote_file` false, and the
`finally` closes the handle on every path. -/
def write_csv_file (openOk : Nat → Bool) (failHeader failData : Bool)
    (filename header data : Option String) (contents : String) : CsvResult :=
  if !pyTruthy filename || !pyTruthy data then
    { outcome := Except.error "Empty parameter passed to write_geo_csv",
      openAttempts := 0, sleepCount := 0, contents := contents,
      wroteHeader := false, handleOpen := false }
  else if !(openLoop openOk MAX_CSV_FILE_OPEN_TRIES 0).1 then
    { outcome := Except.ok false,
      openAttempts := (openLoop openOk MAX_CSV_FILE_OPEN_TRIES 0).2.1,
      sleepCount := (openLoop openOk MAX_CSV_FILE_OPEN_TRIES 0).2.2,
      contents := contents, wroteHeader := false, handleOpen := false }
  else if contents.length = 0 then
    if pyTruthy header then
      if failHeader then
        { outcome := Except.ok false,
          openAttempts := (openLoop openOk MAX_CSV_FILE_OPEN_TRIES 0).2.1,
          sleepCount := (openLoop openOk MAX_CSV_FILE_OPEN_TRIES 0).2.2,
          contents := contents, wroteHeader := false, handleOpen := false }
      else if failData then
        { outcome := Except.ok false,
          openAttempts := (openLoop openOk MAX_CSV_FILE_OPEN_TRIES 0).2.1,
          sleepCount := (openLoop openOk MAX_CSV_FILE_OPEN_TRIES 0).2.2,
          contents := contents ++ header.getD "" ++ "\n",
          wroteHeader := true, handleOpen := false }
      else
        { outcome := Except.ok true,
          openAttempts := (openLoop openOk MAX_CSV_FILE_OPEN_TRIES 0).2.1,
          sleepCount := (openLoop openOk MAX_CSV_FILE_OPEN_TRIES 0).2.2,
          contents := contents ++ header.getD "" ++ "\n" ++ data.getD "" ++ "\n",
          wroteHeader := true, handleOpen := false }
    else if failData then
      { outcome := Except.ok false,
        openAttempts := (openLoop openOk MAX_CSV_FILE_OPEN_TRIES 0).2.1,
        sleepCount := (openLoop openOk MAX_CSV_FILE_OPEN_TRIES 0).2.2,
        contents := contents, wroteHeader := false, handleOpen := false }
    else
      { outcome := Except.ok true,
        openAttempts := (openLoop openOk MAX_CSV_FILE_OPEN_TRIES 0).2.1,
        sleepCount := (openLoop openOk MAX_CSV_FILE_OPEN_TRIES 0).2.2,
        contents := contents ++ data.getD "" ++ "\n",
        wroteHeader := false, handleOpen := false }
  else if failData then
    { outcome := Except.ok false,
      openAttempts := (openLoop openOk MAX_CSV_FILE_OPEN_TRIES 0).2.1,
      sleepCount := (openLoop openOk MAX_CSV_FILE_OPEN_TRIES 0).2.2,
      contents := contents, wroteHeader := false, handleOpen := false }
  else
    { outcome := Except.ok true,
      openAttempts := (openLoop openOk MAX_CSV_FILE_OPEN_TRIES 0).2.1,
      sleepCount := (openLoop openOk MAX_CSV_FILE_OPEN_TRIES 0).2.2,
      contents := contents ++ data.getD "" ++ "\n",
      wroteHeader := false, handleOpen := false }

/-! ## Backoff (`_get_open_backoff`, lines 232-268)

`math.trunc` truncates towards zero; the random draw `multiplier` from
`random()` is an explicit argument in `[0,1)`.  Real arithmetic is
idealised over the rationals. -/

def MAX_FILE_OPEN_SLEEP_SEC : ℚ := 30

/-- Truncation towards zero, Python `math.trunc`. -/
def truncQ (x : ℚ) : ℤ :=
  if 0 ≤ x then ⌊x⌋ else ⌈x⌉

def get_open_backoff : Option ℚ → ℚ → ℚ
  | none, _ => 1
  | some prev, multiplier =>
      let sleep : ℚ := (truncQ (prev * multiplier * 100) : ℚ) / 10
      if sleep > MAX_FILE_OPEN_SLEEP_SEC then
        max (1 / 10) ((truncQ (multiplier * 100) : ℚ) / 10)
      else sleep

/-! ## Remote upload (`update_betydb`, lines 270-294)

The HTTP layer is external: the response is an input, carrying the
status code and (when present) the list found at the JSON path
`data.ids_of_new_traits`.  `resp.raise_for_status()` raises exactly for
client-error and server-error status codes (400-599).  The function
touches no files, which the model makes visible by threading the list
of already-written local CSV rows through unchanged. -/

structure HttpResponse where
  status : Nat
  ids : Option (List Nat)
  deriving Repr, DecidableEq

def raise_for_status (status : Nat) : Except String Unit :=
  if 400 ≤ status ∧ status < 600 then Except.error ("HTTPError " ++ toString status)
  else Except.ok ()

def update_betydb (resp : HttpResponse) (csvRows : List String) :
    Except String (Option (List Nat) × List String) :=
  if resp.status = 200 ∨ resp.status = 201 then
    match resp.ids with
    | some ids => Except.ok (some ids, csvRows)
    | none => Except.error "KeyError: data.ids_of_new_traits"
  else
    match raise_for_status resp.status with
    | Except.error e => Except.error e
    | Except.ok _ => Except.ok (none, csvRows)

/-! ## Extractor initialisation and the traits table
(`init_extraction` lines 62-103, `get_default_trait` lines 311-327,
`get_bety_fields` lines 296-303, `get_bety_traits_table` lines 329-340)

The module-level state mutated by `init_extraction` is modelled as an
explicit record.  Note line 90 of the source:
`TRAIT_NAME_ARRAY_VALUE[0] = SENSOR_NAME` replaces the initial
`'site'` entry with the computed sensor name. -/

/-- A default value in the traits table: either a string or a list
(`get_default_trait` returns `[]` for names in
`TRAIT_NAME_ARRAY_VALUE`). -/
inductive TVal where
  | str (s : String)
  | list (xs : List String)
  deriving Repr, DecidableEq

/-- The `configuration` module constants the initialisation reads. -/
structure ExtractorConfig where
  CITATION_AUTHOR : String
  CITATION_TITLE : String
  CITATION_YEAR : String
  VARIABLE_NAMES : String

/-- The module-level globals after `init_extraction` ran. -/
structure ExtractorState where
  EXTRACTOR_NAME : String
  SENSOR_NAME : String
  TRAIT_NAME_ARRAY_VALUE : List String
  TRAIT_NAME_MAP : List (String × String)
  FIELD_NAME_LIST : List String

/-- Python `str.strip`: drop leading and trailing whitespace. -/
def pyStrip (s : String) : String :=
  ⟨((s.data.dropWhile Char.isWhitespace).reverse.dropWhile Char.isWhitespace).reverse⟩

/-- Helper for `str.split(c)`: accumulate the current chunk while
scanning the characters. -/
def splitOnCharAux (c : Char) : List Char → List Char → List String
  | [], acc => [⟨acc.reverse⟩]
  | x :: xs, acc =>
      if x = c then (⟨acc.reverse⟩ : String) :: splitOnCharAux c xs []
      else splitOnCharAux c xs (x :: acc)

/-- Python `str.split(c)` for a single-character separator. -/
def splitOnChar (c : Char) (s : String) : List String :=
  splitOnCharAux c s.data []

/-- The sensor name: the extractor name stripped, with each space, tab,
newline and carriage return replaced by an underscore, lower-cased. -/
def sensorNameOf (name : String) : String :=
  ⟨((pyStrip name).data.map (fun ch =>
      if ch = ' ' ∨ ch = '\t' ∨ ch = '\n' ∨ ch = '\r' then '_' else ch)).map Char.toLower⟩

/-- Translation of `init_extraction`: after the setup,
`TRAIT_NAME_ARRAY_VALUE` is `[SENSOR_NAME]` (its single `'site'` entry
was overwritten), `TRAIT_NAME_MAP` holds its literal defaults with the
citation entries replaced by the configured constants and — when a
method name was passed — an added `'method_name'` key, and
`FIELD_NAME_LIST` is `VARIABLE_NAMES` split on commas. -/
def init_extraction (cfg : ExtractorConfig) (name : String) (methodName : Option String) :
    Except String ExtractorState :=
  if name = "" then Except.error "Invalid name parameter passed to init_extraction"
  else
    Except.ok
      { EXTRACTOR_NAME := name
        SENSOR_NAME := sensorNameOf name
        TRAIT_NAME_ARRAY_VALUE := [sensorNameOf name]
        TRAIT_NAME_MAP :=
          [("access_level", "2"), ("species", "Unknown"),
           ("citation_author", cfg.CITATION_AUTHOR), ("citation_year", cfg.CITATION_YEAR),
           ("citation_title", cfg.CITATION_TITLE), ("method", "")] ++
          (if pyTruthy methodName then [("method_name", methodName.getD "")] else [])
        FIELD_NAME_LIST :=
          if cfg.VARIABLE_NAMES.data.contains ',' then splitOnChar ',' cfg.VARIABLE_NAMES
          else [cfg.VARIABLE_NAMES] }

def get_default_trait (st : ExtractorState) (traitName : String) : TVal :=
  if traitName ∈ st.TRAIT_NAME_ARRAY_VALUE then TVal.list []
  else
    match dget? st.TRAIT_NAME_MAP traitName with
    | some v => TVal.str v
    | none => TVal.str ""

def get_bety_fields (st : ExtractorState) : List String :=
  ["local_datetime", "access_level", "species", "site", "citation_author", "citation_year",
   "citation_title", "method"] ++ st.FIELD_NAME_LIST

def get_bety_traits_table (st : ExtractorState) : List String × List (String × TVal) :=
  let fields := get_bety_fields st
  (fields, fields.map (fun f => (f, get_default_trait st f)))

/-! ## Concrete inputs used to evaluate the models -/

/-- First option of two choices in `firstSome a b`: Python-style
"`a` if `a` is not `None` else `b`", used to state the dict lemmas. -/
def firstSome {α : Type} (a b : Option α) : Option α :=
  match a with
  | some v => some v
  | none => b

/-- An oracle describing a file whose embedded bounding box is
unavailable: `image_get_geobounds` reports all-NaN coordinates, while
the file carries the valid EPSG code 4326. -/
def nanOracle : ImageOracle :=
  { geobounds := fun _ =>
      { minY := nanCoord, maxY := nanCoord, minX := nanCoord, maxX := nanCoord },
    epsg := fun _ => some 4326,
    epsgValid := fun _ => true }

/-- A concrete configuration module: one variable field, literal
citation strings. -/
def cfg0 : ExtractorConfig :=
  { CITATION_AUTHOR := "Author", CITATION_TITLE := "Title", CITATION_YEAR := "2020",
    VARIABLE_NAMES := "cc_percent" }

/-- The module state `init_extraction cfg0 "canopy cover" None`
produces. -/
def st0 : ExtractorState :=
  { EXTRACTOR_NAME := "canopy cover",
    SENSOR_NAME := "canopy_cover",
    TRAIT_NAME_ARRAY_VALUE := ["canopy_cover"],
    TRAIT_NAME_MAP :=
      [("access_level", "2"), ("species", "Unknown"), ("citation_author", "Author"),
       ("citation_year", "2020"), ("citation_title", "Title"), ("method", "")],
    FIELD_NAME_LIST := ["cc_percent"] }

end Pipeline

namespace Pipeline

/-! # Association-list (Python dict) lemmas -/

theorem dget?_append {α : Type} (d e : List (String × α)) (k : String) :
    dget? (d ++ e) k = firstSome (dget? d k) (dget? e k) := by
  induction d with
  | nil => simp [dget?, firstSome]
  | cons p rest ih =>
      obtain ⟨k', v⟩ := p
      by_cases h : k' = k <;> simp [dget?, h, ih, firstSome]

theorem dget?_eq_none_of_not_mem {α : Type} {e : List (String × α)} {k : String}
    (h : k ∉ e.map Prod.fst) : dget? e k = none := by
  induction e with
  | nil => rfl
  | cons p rest ih =>
      obtain ⟨k', v⟩ := p
      simp only [List.map_cons, List.mem_cons] at h
      push_neg at h
      have h1 : ¬k' = k := fun hh => h.1 hh.symm
      show (if k' = k then some v else dget? rest k) = none
      rw [if_neg h1, ih h.2]

theorem dget?_updateOne_self {α : Type} (d : List (String × α)) (k : String) (v : α) :
    dget? (dupdateOne d k v) k = some v := by
  induction d with
  | nil => simp [dupdateOne, dget?]
  | cons p rest ih =>
      obtain ⟨k', w⟩ := p
      by_cases h : k' = k
      · simp [dupdateOne, h, dget?]
      · simp [dupdateOne, h, dget?, ih]

theorem dget?_updateOne_ne {α : Type} (d : List (String × α)) {k k' : String} (v : α)
    (h : k' ≠ k) : dget? (dupdateOne d k v) k' = dget? d k' := by
  induction d with
  | nil =>
      have h1 : ¬k = k' := fun hh => h hh.symm
      show (if k = k' then some v else dget? [] k') = dget? [] k'
      rw [if_neg h1]
  | cons p rest ih =>
      obtain ⟨k₀, w⟩ := p
      show dget? (if k₀ = k then (k, v) :: rest else (k₀, w) :: dupdateOne rest k v) k' = _
      have h1 : ¬k = k' := fun hh => h hh.symm
      by_cases h0 : k₀ = k
      · rw [if_pos h0]
        show (if k = k' then some v else dget? rest k') = if k₀ = k' then some w else dget? rest k'
        rw [if_neg h1, if_neg (fun hh => h1 (h0.symm.trans hh))]
      · rw [if_neg h0]
        show (if k₀ = k' then some w else dget? (dupdateOne rest k v) k')
            = if k₀ = k' then some w else dget? rest k'
        by_cases h2 : k₀ = k'
        · rw [if_pos h2, if_pos h2]
        · rw [if_neg h2, if_neg h2, ih]

theorem dget?_dupdate {α : Type} (d : List (String × α)) {e : List (String × α)}
    (hnodup : (e.map Prod.fst).Nodup) (k : String) :
    dget? (dupdate d e) k = firstSome (dget? e k) (dget? d k) := by
  induction e generalizing d with
  | nil => simp [dupdate, dget?, firstSome]
  | cons p rest ih =>
      obtain ⟨k₀, v₀⟩ := p
      simp only [List.map_cons, List.nodup_cons] at hnodup
      have hstep : dupdate d ((k₀, v₀) :: rest) = dupdate (dupdateOne d k₀ v₀) rest := rfl
      rw [hstep, ih (dupdateOne d k₀ v₀) hnodup.2]
      by_cases h : k₀ = k
      · subst h
        rw [dget?_eq_none_of_not_mem hnodup.1, dget?_updateOne_self]
        have h2 : dget? ((k₀, v₀) :: rest) k₀ = some v₀ := by simp [dget?]
        rw [h2]
        rfl
      · have h2 : dget? ((k₀, v₀) :: rest) k = dget? rest k := by simp [dget?, h]
        rw [dget?_updateOne_ne d v₀ (fun hh => h hh.symm), h2]

theorem firstSome_assoc {α : Type} (a b c : Option α) :
    firstSome (firstSome a b) c = firstSome a (firstSome b c) := by
  cases a <;> cases b <;> rfl

theorem findSome?_append {α β : Type} (f : α → Option β) (l₁ l₂ : List α) :
    (l₁ ++ l₂).findSome? f = firstSome (l₁.findSome? f) (l₂.findSome? f) := by
  induction l₁ with
  | nil => simp [firstSome]
  | cons a l ih =>
      rw [List.cons_append, List.findSome?_cons, List.findSome?_cons]
      cases f a <;> simp [firstSome, ih]

theorem lastDefining_cons {α : Type} (f : List (String × α))
    (files : List (List (String × α))) (k : String) :
    lastDefining (f :: files) k = firstSome (lastDefining files k) (dget? f k) := by
  unfold lastDefining
  rw [List.reverse_cons, findSome?_append]
  have h1 : List.findSome? (fun f => dget? f k) [f] = dget? f k := by
    rw [List.findSome?_cons]
    cases dget? f k <;> simp
  rw [h1]

theorem load_metadata_foldl {α : Type} (k : String) :
    ∀ (files : List (List (String × α))) (init : List (String × α)),
      (∀ f ∈ files, (f.map Prod.fst).Nodup) →
      dget? (files.foldl (fun md f => if f.isEmpty then md else dupdate md f) init) k
        = firstSome (lastDefining files k) (dget? init k) := by
  intro files
  induction files with
  | nil => intro init _; simp [lastDefining, firstSome]
  | cons f rest ih =>
      intro init h
      have hf : (f.map Prod.fst).Nodup := h f (List.mem_cons_self f rest)
      have hrest : ∀ g ∈ rest, (g.map Prod.fst).Nodup :=
        fun g hg => h g (List.mem_cons_of_mem f hg)
      have hstep : dget? (if f.isEmpty then init else dupdate init f) k
          = firstSome (dget? f k) (dget? init k) := by
        by_cases he : f.isEmpty
        · have : f = [] := List.isEmpty_iff.mp he
          subst this
          simp [dget?, firstSome]
        · rw [if_neg he, dget?_dupdate init hf]
      rw [List.foldl_cons, ih (if f.isEmpty then init else dupdate init f) hrest, hstep,
        lastDefining_cons, firstSome_assoc]

/-- C6: when every metadata file parses, `load_metadata` merges the
top-level mappings in input order with shallow overwrite, so each key's
merged value is the value from the last file (in input order) that
defines it. -/
theorem claim6_metadata_last_wins {α : Type} (files : List (List (String × α)))
    (hnodup : ∀ f ∈ files, (f.map Prod.fst).Nodup) (k : String) :
    dget? (load_metadata files) k = lastDefining files k := by
  unfold load_metadata
  rw [load_metadata_foldl k files [] hnodup]
  cases h : lastDefining files k <;> simp [firstSome, dget?]

/-- Witness for C6: two files both defining key `a`; the merged value
is the second file's value. -/
theorem claim6_witness :
    dget? (load_metadata [[("a", 1), ("b", 2)], [("a", 3)]]) "a"
      = lastDefining [[("a", 1), ("b", 2)], [("a", 3)]] "a" ∧
    lastDefining [[("a", 1), ("b", 2)], [("a", 3)]] "a" = some 3 := by
  constructor
  · exact claim6_metadata_last_wins [[("a", 1), ("b", 2)], [("a", 3)]] (by decide) "a"
  · decide

/-! # Geolocation claims -/

/-- C7: every candidate `load_image_files` produces carries the closed
5-point ring (minX, maxY) → (maxX, maxY) → (maxX, minY) → (minX, minY)
→ (minX, maxY) built from the file's bounding-box extremes; its first
point equals its last point and it never has fewer than 5 points. -/
theorem claim7_ring_closed_five_points (o : ImageOracle) :
    ∀ (files : List String) (res : List (String × Candidate)),
      load_image_files o files = Except.ok res →
      ∀ f c, (f, c) ∈ res →
        c.ring = [((o.geobounds f).minX, (o.geobounds f).maxY),
                  ((o.geobounds f).maxX, (o.geobounds f).maxY),
                  ((o.geobounds f).maxX, (o.geobounds f).minY),
                  ((o.geobounds f).minX, (o.geobounds f).minY),
                  ((o.geobounds f).minX, (o.geobounds f).maxY)] ∧
        c.ring.length = 5 ∧ c.ring.head? = c.ring.getLast? := by
  intro files
  induction files with
  | nil =>
      intro res h f c hm
      simp only [load_image_files] at h
      cases h
      cases hm
  | cons hd tl ih =>
      intro res h f c hm
      simp only [load_image_files] at h
      by_cases hnan : pyFloatNe (o.geobounds hd).minY nanCoord
      · rw [if_pos hnan] at h
        cases hepsg : o.epsg hd with
        | none => simp only [hepsg] at h; cases h
        | some code =>
            simp only [hepsg] at h
            by_cases hvalid : o.epsgValid code
            · rw [if_pos hvalid] at h
              cases hrec : load_image_files o tl with
              | error e => rw [hrec] at h; cases h
              | ok tail =>
                  rw [hrec] at h
                  have hres : res = (hd,
                      { ring := [((o.geobounds hd).minX, (o.geobounds hd).maxY),
                                 ((o.geobounds hd).maxX, (o.geobounds hd).maxY),
                                 ((o.geobounds hd).maxX, (o.geobounds hd).minY),
                                 ((o.geobounds hd).minX, (o.geobounds hd).minY),
                                 ((o.geobounds hd).minX, (o.geobounds hd).maxY)],
                        srid := code }) :: tail := by
                    cases h
                    rfl
                  subst hres
                  rcases List.mem_cons.mp hm with h1 | h2
                  · have hf : f = hd := congrArg Prod.fst h1
                    have hc := congrArg Prod.snd h1
                    simp only at hf hc
                    subst hf
                    subst hc
                    exact ⟨rfl, rfl, rfl⟩
                  · exact ih tail hrec f c h2
            · rw [if_neg hvalid] at h
              cases h
      · rw [if_neg hnan] at h
        exact ih res h f c hm

/-- Witness for C7: a single fully-georeferenced file; the returned
candidate carries exactly the claimed closed 5-point ring. -/
theorem claim7_witness :
    (load_image_files
        { geobounds := fun _ =>
            { minY := some 10, maxY := some 20, minX := some 30, maxX := some 40 },
          epsg := fun _ => some 4326, epsgValid := fun _ => true } ["a.tif"]
      = Except.ok [("a.tif",
        { ring := [(some 30, some 20), (some 40, some 20), (some 40, some 10),
                   (some 30, some 10), (some 30, some 20)], srid := 4326 })]) ∧
    ([(some 30, some 20), (some 40, some 20), (some 40, some 10),
      (some 30, some 10), (some 30, some 20)] : List (Coord × Coord)).length = 5 := by
  constructor
  · rfl
  · exact ((claim7_ring_closed_five_points
      { geobounds := fun _ =>
          { minY := some 10, maxY := some 20, minX := some 30, maxX := some 40 },
        epsg := fun _ => some 4326, epsgValid := fun _ => true } ["a.tif"] _ rfl "a.tif"
      { ring := [(some 30, some 20), (some 40, some 20), (some 40, some 10),
                 (some 30, some 10), (some 30, some 20)], srid := 4326 }
      (List.mem_singleton.mpr rfl)).2).1

/-- C4 (code bug): Python `bounds[0] != np.nan` is always `True`
because NaN compares unequal to everything; a file whose bounding box
is all-NaN is therefore NOT filtered out — `load_image_files` returns
it as a candidate instead of omitting it as the claim states. -/
theorem claim4_nan_file_not_filtered :
    pyFloatNe nanCoord nanCoord = true ∧
    (load_image_files nanOracle ["plot2.tif"]).map (fun l => l.map Prod.fst)
      = Except.ok ["plot2.tif"] :=
  ⟨rfl, rfl⟩

/-! # Durable CSV append claims -/

/-- C2: with a non-empty header, a call on a file that is empty at open
time writes exactly one header line followed by one data line; a call
on a non-empty file writes no header and appends the data line; the
header decision is a function of the file size at open time alone (no
in-memory flag), and the handle is closed on every exit path, including
exceptions during either write. -/
theorem claim2_write_csv_header_semantics :
    ∀ (openOk : Nat → Bool) (fh fd : Bool) (filename header data : Option String)
      (contents : String),
      pyTruthy filename = true → pyTruthy header = true → pyTruthy data = true →
      (openLoop openOk MAX_CSV_FILE_OPEN_TRIES 0).1 = true →
      ((contents = "" → fh = false → fd = false →
          (write_csv_file openOk fh fd filename header data contents).contents
              = header.getD "" ++ "\n" ++ data.getD "" ++ "\n" ∧
          (write_csv_file openOk fh fd filename header data contents).wroteHeader = true ∧
          (write_csv_file openOk fh fd filename header data contents).outcome = Except.ok true) ∧
       (contents ≠ "" →
          (write_csv_file openOk fh fd filename header data contents).wroteHeader = false ∧
          (fd = false →
            (write_csv_file openOk fh fd filename header data contents).contents
                = contents ++ data.getD "" ++ "\n" ∧
            (write_csv_file openOk fh fd filename header data contents).outcome
                = Except.ok true)) ∧
       (fh = false →
          (write_csv_file openOk fh fd filename header data contents).wroteHeader
              = decide (contents = "")) ∧
       (∀ (g : Nat → Bool) (b1 b2 : Bool) (x y z : Option String) (c : String),
          (write_csv_file g b1 b2 x y z c).handleOpen = false)) := by
  intro openOk fh fd filename header data contents h1 h2 h3 hopen
  have hcond : (!pyTruthy filename || !pyTruthy data) = false := by rw [h1, h3]; rfl
  have hlen : contents = "" → contents.length = 0 := by intro h; rw [h]; rfl
  have hlen' : contents ≠ "" → ¬contents.length = 0 := by
    intro h hc
    exact h (String.ext (List.length_eq_zero.mp hc))
  refine ⟨?_, ?_, ?_, ?_⟩
  · intro hc hfh hfd
    subst hc hfh hfd
    simp [write_csv_file, hcond, hopen, h2]
  · intro hc
    constructor
    · by_cases hfh : fh = true <;> by_cases hfd : fd = true <;>
        simp_all [write_csv_file, hcond, hopen, h2, hlen' hc]
    · intro hfd
      subst hfd
      by_cases hfh : fh = true <;>
        simp_all [write_csv_file, hcond, hopen, h2, hlen' hc]
  · intro hfh
    subst hfh
    by_cases hc : contents = ""
    · simp [write_csv_file, hcond, hopen, h2, hlen hc, hc]
      by_cases hfd : fd = true <;> simp_all
    · simp [write_csv_file, hcond, hopen, h2, hlen' hc, hc]
      by_cases hfd : fd = true <;> simp_all
  · intro g b1 b2 x y z c
    unfold write_csv_file
    repeat' split
    all_goals rfl

/-- Witness for C2: contention-free open; the first call on an empty
file writes header then data, a second call on the resulting non-empty
file appends only the data line. -/
theorem claim2_witness :
    (write_csv_file (fun _ => true) false false (some "out.csv") (some "h1,h2")
        (some "1,2") "").contents = "h1,h2" ++ "\n" ++ "1,2" ++ "\n" ∧
    (write_csv_file (fun _ => true) false false (some "out.csv") (some "h1,h2")
        (some "1,2") "h1,h2\n1,2\n").contents = "h1,h2\n1,2\n" ++ "1,2" ++ "\n" := by
  constructor
  · exact ((claim2_write_csv_header_semantics (fun _ => true) false false (some "out.csv")
      (some "h1,h2") (some "1,2") "" rfl rfl rfl rfl).1 rfl rfl rfl).1
  · exact (((claim2_write_csv_header_semantics (fun _ => true) false false (some "out.csv")
      (some "h1,h2") (some "1,2") "h1,h2\n1,2\n" rfl rfl rfl rfl).2.1
        (by decide)).2 rfl).1

/-- C10: an empty (or None) filename or data argument makes
`write_csv_file` raise `RuntimeError` immediately: no open attempt and
no backoff sleep happens, and no boolean result is returned. -/
theorem claim10_empty_param_raises :
    ∀ (openOk : Nat → Bool) (fh fd : Bool) (filename header data : Option String)
      (contents : String),
      pyTruthy filename = false ∨ pyTruthy data = false →
      (write_csv_file openOk fh fd filename header data contents).outcome
          = Except.error "Empty parameter passed to write_geo_csv" ∧
      (write_csv_file openOk fh fd filename header data contents).openAttempts = 0 ∧
      (write_csv_file openOk fh fd filename header data contents).sleepCount = 0 := by
  intro openOk fh fd filename header data contents h
  have hcond : (!pyTruthy filename || !pyTruthy data) = true := by
    rcases h with h | h <;> rw [h] <;> simp
  simp [write_csv_file, hcond]

/-- Witness for C10: a None filename raises before any open attempt. -/
theorem claim10_witness :
    (write_csv_file (fun _ => true) false false none (some "h") (some "d") "").outcome
        = Except.error "Empty parameter passed to write_geo_csv" ∧
    (write_csv_file (fun _ => true) false false none (some "h") (some "d") "").openAttempts = 0 ∧
    (write_csv_file (fun _ => true) false false none (some "h") (some "d") "").sleepCount = 0 :=
  claim10_empty_param_raises (fun _ => true) false false none (some "h") (some "d") ""
    (Or.inl rfl)

/-! # Backoff claim -/

/-- C3: the backoff returns exactly 1 with no previous delay; for a
previous delay `d > 0` and a draw `m` in `[0,1)` it returns
`trunc(d*m*100)/10` (truncation equals the floor since the product is
non-negative), except that when that value exceeds the ceiling of 30
seconds it returns `max(0.1, trunc(m*100)/10)` instead. -/
theorem claim3_backoff_spec (d m : ℚ) (hd : 0 < d) (hm : 0 ≤ m) (hm1 : m < 1) :
    get_open_backoff none m = 1 ∧
    MAX_FILE_OPEN_SLEEP_SEC = 30 ∧
    get_open_backoff (some d) m =
      (if 30 < (⌊d * m * 100⌋ : ℚ) / 10 then max (1 / 10) ((⌊m * 100⌋ : ℚ) / 10)
       else (⌊d * m * 100⌋ : ℚ) / 10) := by
  refine ⟨rfl, rfl, ?_⟩
  have h1 : truncQ (d * m * 100) = ⌊d * m * 100⌋ :=
    if_pos (by positivity)
  have h2 : truncQ (m * 100) = ⌊m * 100⌋ :=
    if_pos (by positivity)
  simp only [get_open_backoff, h1, h2, MAX_FILE_OPEN_SLEEP_SEC]

/-- Witness for C3: with previous delay 100 and draw 1/2 the raw value
500 exceeds the 30-second ceiling, so the result is
`max(0.1, trunc(50)/10) = 5`; with no previous delay the result is 1. -/
theorem claim3_witness :
    get_open_backoff none (1 / 2) = 1 ∧ get_open_backoff (some 100) (1 / 2) = 5 := by
  have h := claim3_backoff_spec 100 (1 / 2) (by norm_num) (by norm_num) (by norm_num)
  refine ⟨h.1, ?_⟩
  rw [h.2.2]
  rw [show ((100 : ℚ) * (1 / 2) * 100) = ((5000 : ℤ) : ℚ) by norm_num,
    show ((1 : ℚ) / 2 * 100) = ((50 : ℤ) : ℚ) by norm_num,
    Int.floor_intCast, Int.floor_intCast]
  norm_num

/-! # Remote upload claim -/

/-- C5 counterexample: an HTTP 204 response is neither 200/201 nor an
error status, so `update_betydb` returns `None` normally instead of
raising as the claim states ("for every other response status it
raises an error"). -/
theorem claim5_counterexample :
    update_betydb { status := 204, ids := none } ["row1"] = Except.ok (none, ["row1"]) := rfl

/-- C5 amended: `update_betydb` returns the identifiers at
`data.ids_of_new_traits` exactly for status 200 or 201; it raises for
every error status (400-599, the statuses `raise_for_status` raises
for); for any other status it returns `None` without raising; and in
every non-raising case the already-written local CSV rows are passed
through unchanged. -/
theorem claim5_amended (resp : HttpResponse) (rows : List String) :
    (resp.status = 200 ∨ resp.status = 201 →
      update_betydb resp rows =
        (match resp.ids with
         | some ids => Except.ok (some ids, rows)
         | none => Except.error "KeyError: data.ids_of_new_traits")) ∧
    (400 ≤ resp.status → resp.status < 600 →
      update_betydb resp rows = Except.error ("HTTPError " ++ toString resp.status)) ∧
    (¬(resp.status = 200 ∨ resp.status = 201) → ¬(400 ≤ resp.status ∧ resp.status < 600) →
      update_betydb resp rows = Except.ok (none, rows)) ∧
    (∀ ids rows', update_betydb resp rows = Except.ok (ids, rows') → rows' = rows) := by
  refine ⟨?_, ?_, ?_, ?_⟩
  · intro h
    simp [update_betydb, h]
  · intro h4 h6
    have hok : ¬(resp.status = 200 ∨ resp.status = 201) := by omega
    simp [update_betydb, hok, raise_for_status, h4, h6]
  · intro hok herr
    simp [update_betydb, hok, raise_for_status, herr]
  · intro ids rows' h
    unfold update_betydb at h
    by_cases hok : resp.status = 200 ∨ resp.status = 201
    · rw [if_pos hok] at h
      cases hids : resp.ids with
      | none => rw [hids] at h; cases h
      | some l => rw [hids] at h; cases h; rfl
    · rw [if_neg hok] at h
      unfold raise_for_status at h
      by_cases herr : 400 ≤ resp.status ∧ resp.status < 600
      · rw [if_pos herr] at h; cases h
      · rw [if_neg herr] at h; cases h; rfl

/-- Witness for C5: a 201 response with two new identifiers yields the
identifier list and leaves the CSV rows unchanged; a 500 response
raises. -/
theorem claim5_witness :
    update_betydb { status := 201, ids := some [7, 9] } ["r1", "r2"]
        = Except.ok (some [7, 9], ["r1", "r2"]) ∧
    update_betydb { status := 500, ids := none } ["r1", "r2"]
        = Except.error ("HTTPError " ++ toString 500) := by
  constructor
  · exact (claim5_amended { status := 201, ids := some [7, 9] } ["r1", "r2"]).1 (Or.inr rfl)
  · exact (claim5_amended { status := 500, ids := none } ["r1", "r2"]).2.1
      (by norm_num) (by norm_num)

/-! # Per-image loop claims -/

theorem process_loop_first_success (alg : String → PyVal) (fields : List String)
    {n : Nat} (hn : 1 < n) :
    ∀ (files : List String) (vals : Option (List PyVal)),
      ((process_loop alg fields n files vals).2 = [] ∧
        (process_loop alg fields n files vals).1 = files) ∨
      (∃ pre r rest, files = pre ++ r :: rest ∧
        (process_loop alg fields n files vals).1 = pre ++ [r] ∧
        (process_loop alg fields n files vals).2 = [r]) := by
  intro files
  induction files with
  | nil => intro vals; left; exact ⟨rfl, rfl⟩
  | cons f rest ih =>
      intro vals
      cases hstep : reconcileStep fields vals (alg f) with
      | mk vals' res =>
          cases res with
          | error e =>
              have hpl : process_loop alg fields n (f :: rest) vals
                  = (f :: (process_loop alg fields n rest vals').1,
                     (process_loop alg fields n rest vals').2) := by
                simp [process_loop, hstep]
              rcases ih vals' with ⟨h2, h1⟩ | ⟨pre, r, rst, hfiles, h1, h2⟩
              · left
                rw [hpl]
                exact ⟨h2, by rw [h1]⟩
              · right
                refine ⟨f :: pre, r, rst, by rw [hfiles, List.cons_append], ?_, ?_⟩
                · rw [hpl, List.cons_append, h1]
                · rw [hpl, h2]
          | ok vs =>
              have hpl : process_loop alg fields n (f :: rest) vals = ([f], [f]) := by
                simp [process_loop, hstep, hn]
              right
              exact ⟨[], f, rest, rfl, by rw [hpl]; rfl, by rw [hpl]⟩

/-- C8 counterexample: two usable images whose algorithm result (the
scalar "0.5") reconciles successfully; the loop breaks after the first
success, so the algorithm is never invoked on the second image, against
the claim that it is invoked once for each of the k usable images. -/
theorem claim8_counterexample :
    process_files_model (fun _ => PyVal.str "0.5") ["cc"] ["a.tif", "b.tif"]
        = (["a.tif"], ["a.tif"]) ∧
    (reconcileStep ["cc"] none (PyVal.str "0.5")).2 = Except.ok [PyVal.str "0.5"] ∧
    (["a.tif"].contains "b.tif") = false :=
  ⟨rfl, rfl, rfl⟩

/-- C8 amended: in a run of `process_files` the external algorithm is
invoked on the usable images in order only up to and including the
first successfully processed one (per-image failures are skipped and
the loop continues); exactly one trait row is produced for that first
successful image, and none for the later images, which are never
invoked — so a run produces at most one trait row. -/
theorem claim8_amended (alg : String → PyVal) (fields : List String) (files : List String) :
    ((process_files_model alg fields files).2 = [] ∧
      (process_files_model alg fields files).1 = files) ∨
    (∃ pre r rest, files = pre ++ r :: rest ∧
      (process_files_model alg fields files).1 = pre ++ [r] ∧
      (process_files_model alg fields files).2 = [r]) := by
  match files with
  | [] => left; exact ⟨rfl, rfl⟩
  | [f] =>
      unfold process_files_model
      cases hstep : reconcileStep fields none (alg f) with
      | mk vals' res =>
          cases res with
          | error e =>
              left
              constructor <;> simp [process_loop, hstep]
          | ok vs =>
              right
              exact ⟨[], f, [], rfl, by simp [process_loop, hstep],
                by simp [process_loop, hstep]⟩
  | f :: g :: rest =>
      exact process_loop_first_success alg fields
        (by simp only [List.length_cons]; omega) (f :: g :: rest) none

/-- C1 (code bug): an algorithm result that is a list is never assigned
to `values` (only the `set`, `dict` and scalar branches assign it), so
even a correctly-sized 1-element list for 1 configured field raises
`UnboundLocalError` at `len(values)` on the first loop iteration; the
per-image handler swallows it and the run produces no trait row —
against the claim (and the code's own "Please use a list or a tuple
instead" message) that such a list is used positionally. -/
theorem claim1_list_result_unbound :
    reconcileStep ["cc"] none (PyVal.list [PyVal.str "0.5"])
        = (none, Except.error
            "UnboundLocalError: local variable values referenced before assignment") ∧
    process_files_model (fun _ => PyVal.list [PyVal.str "0.5"]) ["cc"] ["plot.tif"]
        = (["plot.tif"], []) :=
  ⟨rfl, rfl⟩

/-! # Traits-table claims -/

/-- C9 counterexample: after `init_extraction` with extractor name
"canopy cover", the defaults table maps the `site` field to the empty
string, not to an empty list — line 90 of the source replaces the
`'site'` entry of `TRAIT_NAME_ARRAY_VALUE` with the sensor name. -/
theorem claim9_counterexample :
    (init_extraction cfg0 "canopy cover" none).map
        (fun st => dget? (get_bety_traits_table st).2 "site")
      = Except.ok (some (TVal.str "")) ∧
    decide (TVal.str "" = TVal.list []) = false :=
  ⟨rfl, rfl⟩

/-- C9 amended: after `init_extraction` with any valid name whose
computed sensor name differs from "site", the schema defaults table
assigns the `site` field the empty string; the empty-list default goes
to a field equal to the sensor name instead; fields of the literal map
keep their configured constants (`access_level` 2, `species` Unknown,
the configured citation fields, `method` empty), and every other field
gets the empty string. -/
theorem claim9_amended (cfg : ExtractorConfig) (name : String) (mn : Option String)
    (st : ExtractorState) (h : init_extraction cfg name mn = Except.ok st)
    (hs : st.SENSOR_NAME ≠ "site") :
    dget? (get_bety_traits_table st).2 "site" = some (TVal.str "") ∧
    (∀ f, get_default_trait st f =
      if f = st.SENSOR_NAME then TVal.list []
      else
        match dget? st.TRAIT_NAME_MAP f with
        | some v => TVal.str v
        | none => TVal.str "") ∧
    dget? st.TRAIT_NAME_MAP "access_level" = some "2" ∧
    dget? st.TRAIT_NAME_MAP "species" = some "Unknown" ∧
    dget? st.TRAIT_NAME_MAP "citation_author" = some cfg.CITATION_AUTHOR ∧
    dget? st.TRAIT_NAME_MAP "citation_year" = some cfg.CITATION_YEAR ∧
    dget? st.TRAIT_NAME_MAP "citation_title" = some cfg.CITATION_TITLE ∧
    dget? st.TRAIT_NAME_MAP "method" = some "" ∧
    dget? st.TRAIT_NAME_MAP "site" = none ∧
    dget? st.TRAIT_NAME_MAP "local_datetime" = none := by
  unfold init_extraction at h
  by_cases hname : name = ""
  · rw [if_pos hname] at h
    cases h
  · rw [if_neg hname] at h
    cases h
    have hmap_site : dget? ((ExtractorState.mk name (sensorNameOf name) [sensorNameOf name]
        ([("access_level", "2"), ("species", "Unknown"),
          ("citation_author", cfg.CITATION_AUTHOR), ("citation_year", cfg.CITATION_YEAR),
          ("citation_title", cfg.CITATION_TITLE), ("method", "")] ++
          (if pyTruthy mn then [("method_name", mn.getD "")] else []))
        (if cfg.VARIABLE_NAMES.data.contains ',' then splitOnChar ',' cfg.VARIABLE_NAMES
         else [cfg.VARIABLE_NAMES])).TRAIT_NAME_MAP) "site" = none := by
      by_cases hb : pyTruthy mn = true <;> simp [hb, dget?]
    have hmap_ldt : dget? ((ExtractorState.mk name (sensorNameOf name) [sensorNameOf name]
        ([("access_level", "2"), ("species", "Unknown"),
          ("citation_author", cfg.CITATION_AUTHOR), ("citation_year", cfg.CITATION_YEAR),
          ("citation_title", cfg.CITATION_TITLE), ("method", "")] ++
          (if pyTruthy mn then [("method_name", mn.getD "")] else []))
        (if cfg.VARIABLE_NAMES.data.contains ',' then splitOnChar ',' cfg.VARIABLE_NAMES
         else [cfg.VARIABLE_NAMES])).TRAIT_NAME_MAP) "local_datetime" = none := by
      by_cases hb : pyTruthy mn = true <;> simp [hb, dget?]
    have hnotmem : "site" ∉ [sensorNameOf name] := by
      intro hh
      exact hs (List.mem_singleton.mp hh).symm
    have hsite : get_default_trait (ExtractorState.mk name (sensorNameOf name)
        [sensorNameOf name]
        ([("access_level", "2"), ("species", "Unknown"),
          ("citation_author", cfg.CITATION_AUTHOR), ("citation_year", cfg.CITATION_YEAR),
          ("citation_title", cfg.CITATION_TITLE), ("method", "")] ++
          (if pyTruthy mn then [("method_name", mn.getD "")] else []))
        (if cfg.VARIABLE_NAMES.data.contains ',' then splitOnChar ',' cfg.VARIABLE_NAMES
         else [cfg.VARIABLE_NAMES])) "site" = TVal.str "" := by
      unfold get_default_trait
      rw [if_neg hnotmem, hmap_site]
    refine ⟨?_, ?_, rfl, rfl, rfl, rfl, rfl, rfl, hmap_site, hmap_ldt⟩
    · show some (get_default_trait _ "site") = some (TVal.str "")
      rw [hsite]
    · intro f
      unfold get_default_trait
      by_cases hf : f = sensorNameOf name
      · rw [if_pos (List.mem_singleton.mpr hf), if_pos hf]
      · rw [if_neg (fun hh => hf (List.mem_singleton.mp hh)), if_neg hf]

/-- Witness for C9 (amended): with extractor name "canopy cover" the
`site` default is the empty string while the field named by the sensor
name gets the empty list. -/
theorem claim9_witness :
    dget? (get_bety_traits_table st0).2 "site" = some (TVal.str "") ∧
    get_default_trait st0 "canopy_cover" = TVal.list [] := by
  have h := claim9_amended cfg0 "canopy cover" none st0 (by rfl) (by decide)
  refine ⟨h.1, ?_⟩
  rw [h.2.1 "canopy_cover"]
  rfl

end Pipeline
